import Mathlib

/-!
Verification development for the pyjdbc repository.

Shallow embedding of the parts of the code the claims concern:
- `pyjdbc/connect.py`: `ArgumentOpts.__init__`, `ArgumentParser._register_args`,
  `ArgumentParser._register_positional`, `ArgumentParser._parse_args`, `ArgumentParser.parse`.
- `pyjdbc/types.py`: the `JdbcType` record, the built-in scalar rule table of
  `JdbcTypeConversion` and `JdbcTypeConversion.py_value`.
- `pyjdbc/dbapi.py`: `JdbcConnection.close`, `JdbcCursor.close`,
  `JdbcCursor.column_names`, `JdbcCursor._parse_params`, the parameter-binding
  dispatch of `JdbcCursor.execute`, and the `JdbcCursor.executemany` fallback.

Python values are modelled by an explicit inductive type; dictionaries are
modelled by insertion-ordered association lists with overwrite-on-update,
matching CPython dict semantics; raised exceptions are modelled by `Except`.
-/

/-- Decidable equality for `Except`, needed to evaluate embedded functions on
concrete inputs. -/
instance {ε α : Type} [DecidableEq ε] [DecidableEq α] : DecidableEq (Except ε α) := fun x y =>
  match x, y with
  | .ok a, .ok b =>
    if h : a = b then .isTrue (by rw [h]) else .isFalse (by intro hh; injection hh; exact h (by assumption))
  | .error a, .error b =>
    if h : a = b then .isTrue (by rw [h]) else .isFalse (by intro hh; injection hh; exact h (by assumption))
  | .ok _, .error _ => .isFalse (by intro hh; exact Except.noConfusion hh)
  | .error _, .ok _ => .isFalse (by intro hh; exact Except.noConfusion hh)

/-- Python classes that appear as argument types or conversion targets in the
embedded code. `pyObject` is the class `object`, `pyTypeT` the metaclass `type`. -/
inductive PyType : Type
  | pyInt
  | pyStr
  | pyBool
  | pyFloat
  | pyObject
  | pyTypeT
  deriving DecidableEq, Repr

/-- Python values flowing through `connect.py` argument parsing and `types.py`
value conversion. `vNone` is Python `None`; `vType t` is the class object `t`
passed as a value. -/
inductive PyVal : Type
  | vNone
  | vInt (n : Int)
  | vStr (s : String)
  | vBool (b : Bool)
  | vType (t : PyType)
  deriving DecidableEq, Repr

/-- Python truthiness (`bool(v)`) for the modelled values. -/
def pyTruthy : PyVal → Bool
  | .vNone => false
  | .vInt n => n ≠ 0
  | .vStr s => s ≠ ""
  | .vBool b => b
  | .vType _ => true

/-- Python `isinstance(v, t)` for the modelled values and classes.
`bool` is a subclass of `int` in Python, so `isinstance(True, int)` is true. -/
def pyIsInstance : PyVal → PyType → Bool
  | _, .pyObject => true
  | .vInt _, .pyInt => true
  | .vBool _, .pyInt => true
  | .vBool _, .pyBool => true
  | .vStr _, .pyStr => true
  | .vType _, .pyTypeT => true
  | _, _ => false

/-- Python `issubclass(a, b)` on the modelled classes. -/
def pyIsSubclass (a b : PyType) : Bool :=
  a = b || b = .pyObject || (a = .pyBool && b = .pyInt)

/-- An `argtype` in `ArgumentOpts` is either a single class or a tuple of
classes (both accepted by `isinstance`/`issubclass`). -/
inductive ArgType : Type
  | clsT (t : PyType)
  | tupleT (ts : List PyType)
  deriving DecidableEq, Repr

/-- Python `inspect.isclass` on an argtype: true for a class, false for a tuple. -/
def inspectIsClass : ArgType → Bool
  | .clsT _ => true
  | .tupleT _ => false

/-- Python `isinstance(v, argtype)` where argtype may be a class or a tuple. -/
def argIsInstance (v : PyVal) : ArgType → Bool
  | .clsT t => pyIsInstance v t
  | .tupleT ts => ts.any (pyIsInstance v)

/-- The `is_subclass` probe of `ArgumentParser._parse_args` (connect.py lines
233-237): `issubclass(value, argtype)` succeeds only when the value is itself a
class; any `TypeError` is swallowed and treated as `False`. -/
def argIsSubclassVal (v : PyVal) (aty : ArgType) : Bool :=
  match v with
  | .vType t =>
    match aty with
    | .clsT u => pyIsSubclass t u
    | .tupleT us => us.any (pyIsSubclass t)
  | _ => false

/-- Lookup in an insertion-ordered association list (Python `dict.get`). -/
def assocGet {κ α : Type} [DecidableEq κ] : List (κ × α) → κ → Option α
  | [], _ => none
  | (k, v) :: t, k2 => if k = k2 then some v else assocGet t k2

/-- Membership test on an association list (Python `key in dict`). -/
def assocHas {κ α : Type} [DecidableEq κ] (l : List (κ × α)) (k : κ) : Bool :=
  (assocGet l k).isSome

/-- Update an association list in place, appending when the key is new
(Python `dict[key] = value`). -/
def assocSet {κ α : Type} [DecidableEq κ] : List (κ × α) → κ → α → List (κ × α)
  | [], k2, v2 => [(k2, v2)]
  | (k, v) :: t, k2, v2 => if k = k2 then (k, v2) :: t else (k, v) :: assocSet t k2 v2

/-- Errors raised by the embedded `connect.py` code. In Python these are all
`ValueError`, `TypeError` or `NameError` instances; the constructors here
distinguish the individual raise sites of `ArgumentOpts.__init__`,
`ArgumentParser._register_args` and `ArgumentParser._parse_args`. -/
inductive ConnectErr : Type
  | valueError (msg : String)
  | nameConflict (name : String)
  | nonSequentialPositions
  | tooManyPositional (maxAllowed : Nat)
  | unknownKeyword (name : String)
  | repeatedArgument (name : String)
  | missingArguments (names : List String)
  | typeMismatch (name : String)
  | requiresViolation (name : String) (missing : List String)
  | excludesViolation (name : String) (conflicting : List String)
  | fnTypeMismatch (name : String)
  | invalidChoice (name : String)
  | emptySchema
  | internalError
  deriving DecidableEq, Repr

/-- One argument specification, mirroring the attributes stored by
`ArgumentOpts.__init__` (connect.py lines 60-70). The Python attribute
`default = None` (no default) is modelled by `default = vNone`, matching the
source's `default is not None` tests. -/
structure ArgumentOpts : Type where
  name : Option String := none
  position : Option Nat := none
  argtype : Option ArgType := none
  mandatory : Option Bool := none
  requires : List String := []
  excludes : List String := []
  default : PyVal := .vNone
  description : Option String := none
  secret : Option Bool := none
  choices : List PyVal := []
  fn : Option (PyVal → PyVal) := none

/-- Python identifier test (`str.isidentifier`) restricted to ASCII names,
which is what this repository uses. -/
def pyIsIdentifier (s : String) : Bool :=
  match s.data with
  | [] => false
  | c :: cs => (c.isAlpha || c = '_') && cs.all (fun d => d.isAlphanum || d = '_')

/-- Constructor validation of `ArgumentOpts.__init__` (connect.py lines 35-70):
a declared position forces `mandatory = True`; the name, when given, must be an
identifier; a non-null default is rejected when mandatory is set (which a
position always sets). `requires`, `excludes` and `choices` arrive already
defaulted to `[]`, and the `position`/`fn` runtime type checks are enforced by
the Lean types. -/
def mkArgumentOpts (name : Option String) (position : Option Nat) (argtype : Option ArgType)
    (mandatory0 : Option Bool) (requires : List String) (excludes : List String)
    (default : PyVal) (description : Option String) (secret : Option Bool)
    (choices : List PyVal) (fn : Option (PyVal → PyVal)) : Except ConnectErr ArgumentOpts :=
  let mandatory := if position.isSome then some true else mandatory0
  if name.isSome && !pyIsIdentifier (name.getD "") then
    .error (.valueError "argument name is not a valid python identifier name")
  else if default ≠ .vNone && mandatory.getD false then
    .error (.valueError "mandatory cannot be set when default is set")
  else
    .ok { name := name, position := position, argtype := argtype, mandatory := mandatory,
          requires := requires, excludes := excludes, default := default,
          description := description, secret := secret, choices := choices, fn := fn }

/-- Registration loop of `ArgumentParser._register_args` (connect.py lines
155-176): each spec found on the class is keyed by its declared name, falling
back to the attribute name that defines it when the name is unset or empty;
duplicate names raise. The input list is the class-walk order. -/
def registerArgsAux : List (String × ArgumentOpts) → List (String × ArgumentOpts) →
    Except ConnectErr (List (String × ArgumentOpts))
  | acc, [] => .ok acc
  | acc, (attrName, arg) :: rest =>
    let nm := match arg.name with
      | some s => if s = "" then attrName else s
      | none => attrName
    if assocHas acc nm then .error (.nameConflict nm)
    else registerArgsAux (assocSet acc nm { arg with name := some nm }) rest

/-- Entry point for spec registration, starting from an empty `_named_args`. -/
def registerArgs (specs : List (String × ArgumentOpts)) :
    Except ConnectErr (List (String × ArgumentOpts)) :=
  registerArgsAux [] specs

/-- Position map and contiguity check of `ArgumentParser._register_positional`
(connect.py lines 178-193): later specs with the same position silently
overwrite earlier ones (dict assignment), then the set of positions must be
exactly `0..max`. Returns the position-to-name map. -/
def registerPositional (named : List (String × ArgumentOpts)) :
    Except ConnectErr (List (Nat × String)) :=
  let posMap := named.foldl
    (fun m p => match p.2.position with
      | none => m
      | some i => assocSet m i p.1) []
  if posMap.isEmpty then .ok posMap
  else
    let ks := posMap.map Prod.fst
    let pmax := ks.foldl Nat.max 0
    let nonSequential := (List.range (pmax + 1)).filter (fun i => !ks.contains i)
    if nonSequential.isEmpty then .ok posMap else .error .nonSequentialPositions

/-- Build the positional name-to-value dict (`pos_values`, connect.py line
205): `enumerate(args)` indexed into the position map. A missing index cannot
occur after a successful contiguity check; it is mapped to `internalError`. -/
def posValuesAux (posMap : List (Nat × String)) : List PyVal → Nat → List (String × PyVal) →
    Except ConnectErr (List (String × PyVal))
  | [], _, acc => .ok acc
  | v :: rest, idx, acc =>
    match assocGet posMap idx with
    | none => .error .internalError
    | some nm => posValuesAux posMap rest (idx + 1) (assocSet acc nm v)

/-- Keyword validation loop of `_parse_args` (connect.py lines 207-214): each
keyword must name a declared argument and must not repeat a positional value. -/
def kwLoopAux (named : List (String × ArgumentOpts)) (posValues : List (String × PyVal)) :
    List (String × PyVal) → List (String × PyVal) → Except ConnectErr (List (String × PyVal))
  | acc, [] => .ok acc
  | acc, (k, v) :: rest =>
    if !assocHas named k then .error (.unknownKeyword k)
    else if assocHas posValues k then .error (.repeatedArgument k)
    else kwLoopAux named posValues (assocSet acc k v) rest

/-- Merge step of `_parse_args` (connect.py lines 197-216): cap the positional
count at `max(position)+1`, build `pos_values`, validate keywords, then
`keyword_values.update(pos_values)`. -/
def buildKeywordValues (named : List (String × ArgumentOpts)) (posMap : List (Nat × String))
    (args : List PyVal) (kwargs : List (String × PyVal)) :
    Except ConnectErr (List (String × PyVal)) :=
  let numPositional := if posMap.isEmpty then 0 else (posMap.map Prod.fst).foldl Nat.max 0 + 1
  if args.length > numPositional then .error (.tooManyPositional numPositional)
  else
    match posValuesAux posMap args 0 [] with
    | .error e => .error e
    | .ok posValues =>
      match kwLoopAux named posValues [] kwargs with
      | .error e => .error e
      | .ok kwDict => .ok (posValues.foldl (fun m p => assocSet m p.1 p.2) kwDict)

/-- Mandatory check of `_parse_args` (connect.py lines 218-225): a spec is
required when its mandatory flag is truthy and its default is falsy (Python
`arg.mandatory and not arg.default`); every required name absent from the
merged values is reported at once. -/
def checkMandatory (named : List (String × ArgumentOpts)) (kv : List (String × PyVal)) :
    Except ConnectErr Unit :=
  let mandatoryNames := (named.filter
    (fun p => p.2.mandatory.getD false && !pyTruthy p.2.default)).map Prod.fst
  let missing := mandatoryNames.filter (fun k => !assocHas kv k)
  if missing.isEmpty then .ok () else .error (.missingArguments missing)

/-- Type check of `_parse_args` (connect.py lines 227-245): skipped when the
spec has no argtype or the value is null; otherwise the error fires only when
the argtype is NOT a class (`not inspect.isclass(arg.argtype)`) and the value
is neither an instance nor a subclass. -/
def checkTypesAux (named : List (String × ArgumentOpts)) :
    List (String × PyVal) → Except ConnectErr Unit
  | [] => .ok ()
  | (k, v) :: rest =>
    match assocGet named k with
    | none => .error .internalError
    | some arg =>
      match arg.argtype with
      | none => checkTypesAux named rest
      | some aty =>
        if v = .vNone then checkTypesAux named rest
        else
          if !inspectIsClass aty && !argIsInstance v aty && !argIsSubclassVal v aty then
            .error (.typeMismatch k)
          else checkTypesAux named rest

/-- Requires/excludes check of `_parse_args` (connect.py lines 247-264). -/
def checkRequiresExcludesAux (named : List (String × ArgumentOpts))
    (kv : List (String × PyVal)) : List (String × PyVal) → Except ConnectErr Unit
  | [] => .ok ()
  | (k, _) :: rest =>
    match assocGet named k with
    | none => .error .internalError
    | some arg =>
      let missingRequired := arg.requires.filter (fun r => !assocHas kv r)
      if !arg.requires.isEmpty && !missingRequired.isEmpty then
        .error (.requiresViolation k missingRequired)
      else
        let presentExcludes := arg.excludes.filter (fun e => assocHas kv e)
        if !arg.excludes.isEmpty && !presentExcludes.isEmpty then
          .error (.excludesViolation k presentExcludes)
        else checkRequiresExcludesAux named kv rest

/-- Default application of `_parse_args` (connect.py lines 266-269): for every
declared spec whose default is non-null, when the current value is null or the
name is absent, the default is written in. -/
def applyDefaults (named : List (String × ArgumentOpts)) (kv : List (String × PyVal)) :
    List (String × PyVal) :=
  named.foldl
    (fun m p =>
      if p.2.default ≠ .vNone && ((assocGet m p.1).getD .vNone = .vNone) then
        assocSet m p.1 p.2.default
      else m) kv

/-- Transform application of `_parse_args` (connect.py lines 271-289): skipped
for null values and specs without a function; when the spec also declares an
argtype, the function result must be an instance of it. -/
def applyFnsAux (named : List (String × ArgumentOpts)) :
    List String → List (String × PyVal) → Except ConnectErr (List (String × PyVal))
  | [], m => .ok m
  | k :: rest, m =>
    match assocGet named k with
    | none => .error .internalError
    | some arg =>
      match assocGet m k with
      | none => .error .internalError
      | some cur =>
        if cur = .vNone then applyFnsAux named rest m
        else
          match arg.fn with
          | none => applyFnsAux named rest m
          | some f =>
            let newVal := f cur
            match arg.argtype with
            | some aty =>
              if !argIsInstance newVal aty then .error (.fnTypeMismatch k)
              else applyFnsAux named rest (assocSet m k newVal)
            | none => applyFnsAux named rest (assocSet m k newVal)

/-- The transform loop iterates over the keys of the current dict. -/
def applyFns (named : List (String × ArgumentOpts)) (kv : List (String × PyVal)) :
    Except ConnectErr (List (String × PyVal)) :=
  applyFnsAux named (kv.map Prod.fst) kv

/-- Choice check of `_parse_args` (connect.py lines 291-300). -/
def checkChoicesAux (named : List (String × ArgumentOpts)) :
    List (String × PyVal) → Except ConnectErr Unit
  | [] => .ok ()
  | (k, v) :: rest =>
    match assocGet named k with
    | none => .error .internalError
    | some arg =>
      if arg.choices.isEmpty then checkChoicesAux named rest
      else if !arg.choices.contains v then .error (.invalidChoice k)
      else checkChoicesAux named rest

/-- The body of `ArgumentParser._parse_args` (connect.py lines 195-302), after
registration has produced the named-spec dict and the position map. -/
def parseArgs (named : List (String × ArgumentOpts)) (posMap : List (Nat × String))
    (args : List PyVal) (kwargs : List (String × PyVal)) :
    Except ConnectErr (List (String × PyVal)) :=
  match buildKeywordValues named posMap args kwargs with
  | .error e => .error e
  | .ok kv =>
    match checkMandatory named kv with
    | .error e => .error e
    | .ok _ =>
      match checkTypesAux named kv with
      | .error e => .error e
      | .ok _ =>
        match checkRequiresExcludesAux named kv kv with
        | .error e => .error e
        | .ok _ =>
          let kv2 := applyDefaults named kv
          match applyFns named kv2 with
          | .error e => .error e
          | .ok kv3 =>
            match checkChoicesAux named kv3 with
            | .error e => .error e
            | .ok _ => .ok kv3

/-- `ArgumentParser.parse` (connect.py lines 341-355): register the declared
specs, reject an empty schema, validate positional contiguity, then parse. -/
def parseParser (specs : List (String × ArgumentOpts)) (args : List PyVal)
    (kwargs : List (String × PyVal)) : Except ConnectErr (List (String × PyVal)) :=
  match registerArgs specs with
  | .error e => .error e
  | .ok named =>
    if named.isEmpty then .error .emptySchema
    else
      match registerPositional named with
      | .error e => .error e
      | .ok posMap => parseArgs named posMap args kwargs

/-!
Embedding of `pyjdbc/types.py`: the `JdbcType` conversion record and
`JdbcTypeConversion.py_value` (lines 244-325), plus the built-in scalar rule
table (lines 151-169).
-/

/-- Errors raised by the embedded `types.py` code: all raise sites in
`py_value` produce `ValueError` or `AttributeError`. -/
inductive TypesErr : Type
  | valueError (msg : String)
  | attributeError (msg : String)
  deriving DecidableEq, Repr

/-- The `pytype` attribute of a `JdbcType`: Python `None`, the sentinel class
`object` (meaning any type, no conversion), or a concrete class. -/
inductive PyTypeField : Type
  | noneTy
  | objectTy
  | clsTy (t : PyType)
  deriving DecidableEq, Repr

/-- Model of a JDBC `ResultSet` as seen by one `py_value` call: what
`wasNull()` reports before the getter runs, whether a getter method exists,
what invoking it returns (`.error` models a raised Java exception, `.ok none`
a Java null), and what `wasNull()` reports after the getter ran. -/
structure RSModel : Type where
  wasNull0 : Bool
  hasMethod : String → Bool
  getVal : String → Int → Except String (Option PyVal)
  wasNull1 : Bool

/-- Conversion settings for one jdbc type, mirroring the attributes of
`JdbcType.__init__` (types.py lines 12-47). The dynamically-typed `fn`
attribute is split by its two call shapes: `fn` for scalar conversion
functions called as `fn(value)` and `fnRS` for `resultset=True` functions
called as `fn(resultset, column_idx)`; the `decorator` flag only selects
whether the registry instance is passed as `self`, which the Lean functions
close over, so it is carried but has no separate behavior here. -/
structure JdbcType : Type where
  name : Option String := none
  getter : String
  setter : String
  pytype : PyTypeField := .noneTy
  resultset : Bool := false
  fn : Option (PyVal → PyVal) := none
  fnRS : Option (RSModel → Int → Except String (Option PyVal)) := none
  decorator : Bool := false

/-- Python constructor call `t(v)` for the conversion step of `py_value`
(types.py line 317): `str(v)` stringifies, `int(v)` parses or truncates,
`bool(v)` is truthiness. A raised exception is `.error`. Constructing a
`float` is not modelled (floating point); no claim under verification
exercises a `float`-typed rule. -/
def pyConstruct (t : PyType) (v : PyVal) : Except String PyVal :=
  match t with
  | .pyStr =>
    .ok (.vStr (match v with
      | .vNone => "None"
      | .vInt n => toString n
      | .vStr s => s
      | .vBool b => if b then "True" else "False"
      | .vType _ => "class"))
  | .pyInt =>
    match v with
    | .vInt n => .ok (.vInt n)
    | .vBool b => .ok (.vInt (if b then 1 else 0))
    | .vStr s =>
      match s.toInt? with
      | some n => .ok (.vInt n)
      | none => .error "invalid literal for int"
    | _ => .error "int argument invalid"
  | .pyBool => .ok (.vBool (pyTruthy v))
  | .pyFloat => .error "float construction not modelled"
  | .pyObject => .ok v
  | .pyTypeT => .error "type argument invalid"

/-- The `JDBC_DEFAULT` fallback rule (types.py line 169). -/
def JDBC_DEFAULT : JdbcType :=
  { name := some "JDBC_DEFAULT", getter := "getObject", setter := "setObject",
    pytype := .objectTy }

/-- The built-in scalar rules declared as class attributes of
`JdbcTypeConversion` (types.py lines 151-163), keyed by type name exactly as
written in the source: note `TINYINT` maps to `int` while `SMALLINT`,
`INTEGER`, `BIGINT` and `REAL` map to `str`. The decorator-registered rules
(`DATE`, `TIME`, `TIMESTAMP`, `DECIMAL`, `NUMERIC`, `ARRAY`, `MAP`, `STRUCT`)
carry datetime/decimal conversion functions not exercised by any claim and are
not included in this table. -/
def defaultJdbcTypes (nm : String) : Option JdbcType :=
  if nm = "VARCHAR" then some { name := some "VARCHAR", getter := "getString", setter := "setString", pytype := .clsTy .pyStr }
  else if nm = "CHAR" then some { name := some "CHAR", getter := "getString", setter := "setString", pytype := .clsTy .pyStr }
  else if nm = "LONGVARCHAR" then some { name := some "LONGVARCHAR", getter := "getString", setter := "setString", pytype := .clsTy .pyStr }
  else if nm = "BIT" then some { name := some "BIT", getter := "getBoolean", setter := "setBoolean", pytype := .clsTy .pyBool }
  else if nm = "BOOLEAN" then some { name := some "BOOLEAN", getter := "getBoolean", setter := "setBoolean", pytype := .clsTy .pyBool }
  else if nm = "TINYINT" then some { name := some "TINYINT", getter := "getByte", setter := "setByte", pytype := .clsTy .pyInt }
  else if nm = "SMALLINT" then some { name := some "SMALLINT", getter := "getInt", setter := "setInt", pytype := .clsTy .pyStr }
  else if nm = "INTEGER" then some { name := some "INTEGER", getter := "getInt", setter := "setInt", pytype := .clsTy .pyStr }
  else if nm = "BIGINT" then some { name := some "BIGINT", getter := "getInt", setter := "setInt", pytype := .clsTy .pyStr }
  else if nm = "REAL" then some { name := some "REAL", getter := "getReal", setter := "setReal", pytype := .clsTy .pyStr }
  else if nm = "JDBC_DEFAULT" then some JDBC_DEFAULT
  else none

/-- Python `str.upper()` for the ASCII type names used here, written over the
character list so that it evaluates inside the kernel. -/
def pyToUpper (s : String) : String :=
  ⟨s.data.map Char.toUpper⟩

/-- The body of `JdbcTypeConversion.py_value` (types.py lines 244-325) for a
call supplying `jdbc_name`. The `jdbc_code` branch resolves the code through
the foreign `java.sql.JDBCType` registry and is not modelled; `types` is the
registry dict `self._jdbc_types` assembled by `_configure_jdbc`. Steps, in
source order: immediate null short-circuit on `wasNull()`; column index
validation; type-name resolution; rule lookup with `JDBC_DEFAULT` fallback;
either the resultset-style function call (which returns directly) or the
getter invocation followed by the second null check, the optional scalar
conversion function, and otherwise the pytype constructor plus `isinstance`
validation. -/
def pyValue (types : String → Option JdbcType) (rs : RSModel) (columnIdx : Int)
    (jdbcName : Option String) : Except TypesErr (Option PyVal) :=
  if rs.wasNull0 then .ok none
  else if columnIdx < 1 then
    .error (.valueError "column invalid value - jdbc columns must be 1 or greater")
  else
    match jdbcName with
    | none => .error (.valueError "one of jdbc_code or jdbc_name must be provided")
    | some nm0 =>
      let typeName := pyToUpper nm0
      let conv := (types typeName).getD JDBC_DEFAULT
      if conv.resultset then
        match conv.fnRS with
        | none => .error (.valueError "JdbcType has no function associated, but resultset=True")
        | some f =>
          match f rs columnIdx with
          | .error _ => .error (.valueError "error converting via resultset function")
          | .ok v => .ok v
      else
        if !rs.hasMethod conv.getter then
          .error (.attributeError "unable to find method")
        else
          match rs.getVal conv.getter columnIdx with
          | .error _ => .error (.attributeError "unable to get value")
          | .ok jv =>
            if rs.wasNull1 || jv = none then .ok none
            else
              match jv with
              | none => .ok none
              | some v0 =>
                match conv.fn with
                | some f => .ok (some (f v0))
                | none =>
                  match conv.pytype with
                  | .clsTy t =>
                    match pyConstruct t v0 with
                    | .error _ => .error (.valueError "error converting")
                    | .ok v1 =>
                      if pyIsInstance v1 t then .ok (some v1)
                      else .error (.valueError "unexpected type")
                  | .noneTy => .ok (some v0)
                  | .objectTy => .ok (some v0)

/-!
Embedding of `pyjdbc/dbapi.py`: connection/cursor close, column-name
derivation, positional parameter parsing, the parameter-binding dispatch of
`execute`, and the `executemany` fallback row count.
-/

/-- Errors surfaced by the embedded `dbapi.py` code. The repository's
`pyjdbc/exceptions.py` is not present under `src/`; its class taxonomy is
modelled from the spec: `stateError` is the kind for operations on a closed
connection or cursor and for double-close (spec section 7, "StateError"),
which the source raises as `Error(...)` from `pyjdbc.exceptions`. The
remaining constructors are the plain `ValueError`s raised by
`JdbcCursor._parse_params` and the `AttributeError` of `column_names`. -/
inductive DbErr : Type
  | stateError (msg : String)
  | paramsEmpty
  | insufficientParams (expected : Nat) (got : Nat)
  | excessParams (extra : Nat)
  | attributeError (msg : String)
  | indexError (msg : String)
  | foreignError (msg : String)
  deriving DecidableEq, Repr

/-- The foreign `java.sql.Connection` handle as the connection wrapper sees
it: only its closed flag matters to `close`/`is_closed`. -/
structure JConn : Type where
  closed : Bool
  deriving DecidableEq, Repr

/-- `JdbcConnection.close` (dbapi.py lines 57-60): raise when the foreign
handle is already closed, otherwise close it. -/
def connectionClose (c : JConn) : Except DbErr JConn :=
  if c.closed then .error (.stateError "Connection already closed")
  else .ok { closed := true }

/-- A foreign statement or result-set handle held by a cursor; `closeRaises`
records whether its `close()` call would raise. -/
structure FHandle : Type where
  closeRaises : Bool
  deriving DecidableEq, Repr

/-- The cursor state touched by `JdbcCursor.close` (dbapi.py lines 90-98 and
191-230): the connection back-reference, cached metadata/description, and the
foreign statement and result-set handles. -/
structure CursorState : Type where
  connection : Option JConn
  metadata : Bool
  description : Bool
  statement : Option FHandle
  resultset : Option FHandle
  deriving DecidableEq, Repr

/-- `JdbcCursor._close_statement` (dbapi.py lines 198-201): close the handle
if present, then drop it; when the foreign close raises, the handle is NOT
dropped because the assignment after the raising call never runs. -/
def closeStatement (c : CursorState) : Except DbErr CursorState :=
  match c.statement with
  | none => .ok { c with statement := none }
  | some st =>
    if st.closeRaises then .error (.foreignError "statement close failed")
    else .ok { c with statement := none }

/-- `JdbcCursor._close_resultset` (dbapi.py lines 203-206): same shape as
`_close_statement`, guarded by `_resultset_valid`. -/
def closeResultset (c : CursorState) : Except DbErr CursorState :=
  match c.resultset with
  | none => .ok { c with resultset := none }
  | some rsh =>
    if rsh.closeRaises then .error (.foreignError "resultset close failed")
    else .ok { c with resultset := none }

/-- `JdbcCursor.close` (dbapi.py lines 214-230): clear the connection
reference and cached metadata, then close the statement and the result set,
each wrapped in `try/except Exception: pass` so that a raising foreign close
is swallowed. The method performs no closed-state check and raises nothing. -/
def cursorClose (c : CursorState) : Except DbErr CursorState :=
  let c1 : CursorState := { c with connection := none, metadata := false, description := false }
  let c2 := match closeStatement c1 with
    | .ok cOk => cOk
    | .error _ => c1
  let c3 := match closeResultset c2 with
    | .ok cOk => cOk
    | .error _ => c2
  .ok c3

/-- Split a Python string at the first dot: `s.split(".", 1)` yields two
pieces when a dot is present. Returns `none` when the string has no dot. -/
def splitFirstDot (s : String) : Option (String × String) :=
  match s.data.findIdx? (fun c => c = '.') with
  | none => none
  | some i => some (⟨s.data.take i⟩, ⟨s.data.drop (i + 1)⟩)

/-- Python `s.split(".", 1)[-1]`: the text after the first dot, or the whole
string when there is no dot. -/
def tailAfterDot (s : String) : String :=
  match splitFirstDot s with
  | none => s
  | some p => p.2

/-- `JdbcCursor.column_names` (dbapi.py lines 115-147) applied to the names
the column metadata reports (`meta.getColumnName` per column); callers with no
metadata get Python `None`, modelled as input `none` and output `.ok none`.
When the first name contains a dot, the code builds the text after that
name's first dot plus a dot (`names[0].split(".", 1)[-1]` + a dot); if every
name starts with that text it evaluates `names.replace(...)` on the LIST
`names`, which raises `AttributeError` (lists have no `replace` method);
otherwise it takes each name's text after its first dot — raising
`IndexError` when some name has no dot, since `split(".", 1)` then yields a
single piece — and returns those unprefixed names when they are pairwise
distinct, or the original names unchanged when they are not. -/
def columnNames (names : Option (List String)) : Except DbErr (Option (List String)) :=
  match names with
  | none => .ok none
  | some ns =>
    if ns.isEmpty then .ok none
    else
      match ns.head? with
      | none => .ok none
      | some h =>
        if h.data.any (fun c => c = '.') then
          let pfx := tailAfterDot h ++ "."
          if ns.all (fun n => pfx.data.isPrefixOf n.data) then
            .error (.attributeError "list object has no attribute replace")
          else
            match ns.mapM (fun n => (splitFirstDot n).map Prod.snd) with
            | none => .error (.indexError "list index out of range")
            | some noPfx =>
              if noPfx.eraseDups.length = ns.length then .ok (some noPfx)
              else .ok (some ns)
        else .ok (some ns)

/-- Native parameter values passed to `JdbcCursor.execute` for binding
(dbapi.py lines 343-366). Floating-point payloads are carried as an opaque
tag (their numeric behavior is never inspected by the dispatch); `pOther` is
any value of a type outside the dispatched ones. -/
inductive ParamVal : Type
  | pStr (s : String)
  | pFloat (tag : Nat)
  | pInt (n : Int)
  | pBool (b : Bool)
  | pBytes (bs : List Nat)
  | pOther (tag : Nat)
  deriving DecidableEq, Repr

/-- Python `isinstance` for the binding dispatch: note that a `bool` value is
an instance of `int` (Python's `bool` subclasses `int`), which is what the
`elif isinstance(value, int)` test in `execute` observes. -/
def paramIsInstance : ParamVal → PyType → Bool
  | .pStr _, .pyStr => true
  | .pFloat _, .pyFloat => true
  | .pInt _, .pyInt => true
  | .pBool _, .pyInt => true
  | .pBool _, .pyBool => true
  | _, _ => false

/-- The Python `int` payload of a value in the integer branch: `JInt(True)`
is 1, `JInt(False)` is 0. -/
def paramIntPayload : ParamVal → Int
  | .pInt n => n
  | .pBool b => if b then 1 else 0
  | _ => 0

/-- One foreign setter invocation on the prepared statement. -/
inductive BindCall : Type
  | setString (col : Nat) (s : String)
  | setDouble (col : Nat) (tag : Nat)
  | setInt (col : Nat) (n : Int)
  | setLong (col : Nat) (n : Int)
  | setBoolean (col : Nat) (b : Bool)
  | setBytes (col : Nat) (bs : List Nat)
  | setObject (col : Nat) (tag : Nat)
  deriving DecidableEq, Repr

/-- Whether a Python int fits `JInt` (a signed 32-bit Java int); outside this
range `JInt(value)` raises and `execute` falls back to `setLong`. -/
def fitsJInt (n : Int) : Bool :=
  -(2 ^ 31) ≤ n && n < 2 ^ 31

/-- The binding dispatch of `JdbcCursor.execute` (dbapi.py lines 343-366),
translated test by test in source order: str, float, int (with the 32-bit
attempt falling back to 64-bit), bool, bytes, else `setObject`. The bytes
payload is passed to `setBytes`; the source's intermediate
`value.decode("utf-8")` re-encoding is a foreign-bridge detail not modelled. -/
def bindParam (column : Nat) (v : ParamVal) : BindCall :=
  if paramIsInstance v .pyStr then
    .setString column (match v with | .pStr s => s | _ => "")
  else if paramIsInstance v .pyFloat then
    .setDouble column (match v with | .pFloat t => t | _ => 0)
  else if paramIsInstance v .pyInt then
    let n := paramIntPayload v
    if fitsJInt n then .setInt column n else .setLong column n
  else if paramIsInstance v .pyBool then
    .setBoolean column (match v with | .pBool b => b | _ => false)
  else
    match v with
    | .pBytes bs => .setBytes column bs
    | .pOther t => .setObject column t
    | _ => .setObject column 0

/-- The binding loop `for column, value in enumerate(params or [], start=1)`
(dbapi.py line 343): 1-based column indexes. -/
def bindParams (params : List ParamVal) : List BindCall :=
  params.enum.map (fun p => bindParam (p.1 + 1) p.2)

/-- Python `sql.count("%s")`: non-overlapping substring count of the
positional markers, over the character list. -/
def countPS : List Char → Nat
  | '%' :: 's' :: rest => countPS rest + 1
  | _ :: rest => countPS rest
  | [] => 0

/-- The `format`-to-`qmark` placeholder rewrite performed through the
`sqlparams` library: each `%s` marker becomes `?`, consuming supplied values
left to right. -/
def convertQmark : List Char → List Char
  | '%' :: 's' :: rest => '?' :: convertQmark rest
  | c :: rest => c :: convertQmark rest
  | [] => []

/-- The positional branch of `JdbcCursor._parse_params` (dbapi.py lines
258-315): empty parameters are rejected up front with a generic ValueError
(line 269); the `sqlparams` conversion raises `IndexError` when fewer values
are supplied than `%s` markers, reported as the insufficient-parameters
ValueError with expected and actual counts (lines 299-303); values left over
after conversion are reported as the excess-parameters ValueError (lines
305-313). On success, the rewritten statement and the consumed values are
returned. -/
def parseParamsPositional (sql : String) (params : List ParamVal) :
    Except DbErr (String × List ParamVal) :=
  if params.isEmpty then .error .paramsEmpty
  else
    let markers := countPS sql.data
    if params.length < markers then .error (.insufficientParams markers params.length)
    else if params.length > markers then .error (.excessParams (params.length - markers))
    else .ok (⟨convertQmark sql.data⟩, params)

/-- One foreign call made by `execute`, in order: statement preparation,
parameter clearing, a setter invocation, statement execution. -/
inductive FCall : Type
  | prepare (sql : String)
  | clearParameters
  | bind (b : BindCall)
  | exec
  deriving DecidableEq, Repr

/-- The front half of `JdbcCursor.execute` for a positional-parameter call
(dbapi.py lines 317-369): the closed-connection check, the parameter parse
(only reached when `params` is not `None`), then statement preparation,
parameter clearing, the binding loop and the foreign execution. The returned
list is the foreign calls actually issued, so an error raised during
parameter parsing is paired with an empty call list: nothing was prepared. -/
def executeCalls (connClosed : Bool) (sql : String) (params : Option (List ParamVal)) :
    List FCall × Option DbErr :=
  if connClosed then ([], some (.stateError "the connection has been closed"))
  else
    match params with
    | some ps =>
      match parseParamsPositional sql ps with
      | .error e => ([], some e)
      | .ok (op, consumed) =>
        (.prepare op :: .clearParameters :: (bindParams consumed).map .bind ++ [.exec], none)
    | none =>
      (.prepare sql :: .clearParameters :: [.exec], none)

/-- The `executemany` fallback of `JdbcCursor` (dbapi.py lines 418-426),
entered when the batched path raises `java.sql.SQLException`: `execute` is
issued once per parameter set, and each resulting `_rowcount` is added to the
running total only when it is positive; the cursor row count becomes that
total, or -1 when row counting is disabled. `execCounts` is the sequence of
`_rowcount` values the per-set executions produce (-1 meaning unknown). -/
def executemanyFallbackRowcount (getRowcounts : Bool) (execCounts : List Int) : Int :=
  let total := execCounts.foldl (fun acc c => if c > 0 then acc + c else acc) 0
  if getRowcounts then total else -1

/-!
Concrete fixtures used by the theorems below.
-/

/-- A result set whose every getter returns the Java integer 5 for any
column, with no nulls reported. -/
def rsFive : RSModel :=
  { wasNull0 := false, hasMethod := fun _ => true,
    getVal := fun _ _ => .ok (some (.vInt 5)), wasNull1 := false }

/-- A result set reporting the current column value as null. -/
def rsNullFlagged : RSModel :=
  { wasNull0 := true, hasMethod := fun _ => true,
    getVal := fun _ _ => .ok (some (.vInt 5)), wasNull1 := false }

/-- A spec declaring `argtype=str` (a class), as `SqliteArgParser.file_name`
does. -/
def specStrTyped : ArgumentOpts :=
  { name := some "x", argtype := some (.clsT .pyStr) }

/-- A spec declaring its argtype as the tuple `(str,)`, the one shape for
which the `_parse_args` type check can actually fire. -/
def specStrTupleTyped : ArgumentOpts :=
  { name := some "y", argtype := some (.tupleT [.pyStr]) }

/-- The record `ArgumentOpts.__init__` produces for a positional spec at the
given position: the position forces `mandatory=True`. -/
def positionalSpec (nm : String) (i : Nat) : ArgumentOpts :=
  { name := some nm, position := some i, mandatory := some true }

/-- A spec with a non-null default and no transform, as
`SqliteArgParser.properties` has. -/
def specWithDefault : ArgumentOpts :=
  { name := some "x", default := .vStr "def" }

/-- A freshly used cursor: live connection reference, cached metadata, open
statement and result-set handles whose foreign closes succeed. -/
def freshCursor : CursorState :=
  { connection := some { closed := false }, metadata := true, description := true,
    statement := some { closeRaises := false }, resultset := some { closeRaises := false } }

/-- The cursor state after a successful `close()`: everything released. -/
def closedCursor : CursorState :=
  { connection := none, metadata := false, description := false,
    statement := none, resultset := none }

/-- Whether a `DbErr` is one of the two positional count-mismatch errors of
`_parse_params` (too few values for the markers, or values left over). -/
def DbErr.isCountMismatch : DbErr → Bool
  | .insufficientParams _ _ => true
  | .excessParams _ => true
  | _ => false

/-!
Helper lemmas about association lists and folds.
-/

theorem assocGet_assocSet_self {α : Type} (l : List (String × α)) (k : String) (v : α) :
    assocGet (assocSet l k v) k = some v := by
  induction l with
  | nil => simp [assocSet, assocGet]
  | cons p t ih =>
    obtain ⟨k1, v1⟩ := p
    by_cases h : k1 = k
    · simp [assocSet, assocGet, h]
    · simp [assocSet, assocGet, h, ih]

theorem assocGet_assocSet_ne {α : Type} (l : List (String × α)) (k k2 : String) (v : α)
    (h : k ≠ k2) : assocGet (assocSet l k v) k2 = assocGet l k2 := by
  induction l with
  | nil => simp [assocSet, assocGet, h]
  | cons p t ih =>
    obtain ⟨k1, v1⟩ := p
    by_cases h1 : k1 = k
    · subst h1
      simp [assocSet, assocGet, h]
    · simp [assocSet, assocGet, h1, ih]

theorem assocGet_none_keys {α : Type} (l : List (String × α)) (k : String)
    (h : assocGet l k = none) : ∀ p ∈ l, p.1 ≠ k := by
  induction l with
  | nil => simp
  | cons p t ih =>
    obtain ⟨k1, v1⟩ := p
    intro q hq
    by_cases h1 : k1 = k
    · simp [assocGet, h1] at h
    · rcases List.mem_cons.mp hq with hq1 | hq2
      · subst hq1; exact h1
      · exact ih (by simpa [assocGet, h1] using h) q hq2

theorem foldl_assocSet_preserve {α : Type} (pvs : List (String × α)) (m0 : List (String × α))
    (n : String) (h : ∀ p ∈ pvs, p.1 ≠ n) :
    assocGet (pvs.foldl (fun m p => assocSet m p.1 p.2) m0) n = assocGet m0 n := by
  induction pvs generalizing m0 with
  | nil => simp
  | cons p t ih =>
    obtain ⟨k, v⟩ := p
    have hk : k ≠ n := h (k, v) (List.mem_cons_self _ _)
    have ht : ∀ q ∈ t, q.1 ≠ n := fun q hq => h q (List.mem_cons_of_mem _ hq)
    simp only [List.foldl_cons]
    rw [ih (assocSet m0 k v) ht, assocGet_assocSet_ne _ _ _ _ hk]

theorem kwLoopAux_preserve (named : List (String × ArgumentOpts))
    (posValues : List (String × PyVal)) (kwargs : List (String × PyVal))
    (acc m : List (String × PyVal)) (n : String)
    (hok : kwLoopAux named posValues acc kwargs = .ok m)
    (hnot : ∀ p ∈ kwargs, p.1 ≠ n) :
    assocGet m n = assocGet acc n := by
  induction kwargs generalizing acc with
  | nil =>
    simp [kwLoopAux] at hok
    subst hok; rfl
  | cons p t ih =>
    obtain ⟨k, v⟩ := p
    have hk : k ≠ n := hnot (k, v) (List.mem_cons_self _ _)
    have ht : ∀ q ∈ t, q.1 ≠ n := fun q hq => hnot q (List.mem_cons_of_mem _ hq)
    simp only [kwLoopAux] at hok
    by_cases h1 : assocHas named k
    · by_cases h2 : assocHas posValues k
      · simp [h1, h2] at hok
      · simp [h1, h2] at hok
        rw [ih (assocSet acc k v) hok ht, assocGet_assocSet_ne _ _ _ _ hk]
    · simp [h1] at hok

theorem kwLoopAux_found (named : List (String × ArgumentOpts))
    (posValues : List (String × PyVal)) (kwargs : List (String × PyVal))
    (acc m : List (String × PyVal)) (n : String)
    (hok : kwLoopAux named posValues acc kwargs = .ok m)
    (hmem : (n, PyVal.vNone) ∈ kwargs)
    (hnd : (kwargs.map Prod.fst).Nodup) :
    assocGet m n = some .vNone ∧ assocHas posValues n = false := by
  induction kwargs generalizing acc with
  | nil => simp at hmem
  | cons p t ih =>
    obtain ⟨k, v⟩ := p
    simp only [kwLoopAux] at hok
    by_cases h1 : assocHas named k
    · by_cases h2 : assocHas posValues k
      · simp [h1, h2] at hok
      · simp [h1, h2] at hok
        simp only [List.map_cons] at hnd
        rw [List.nodup_cons] at hnd
        rcases List.mem_cons.mp hmem with hh | hh
        · have hkn : k = n := by
            have := congrArg Prod.fst hh.symm
            simpa using this
          have hv : v = PyVal.vNone := by
            have := congrArg Prod.snd hh.symm
            simpa using this
          subst hkn; subst hv
          have hrest : ∀ q ∈ t, q.1 ≠ k := by
            intro q hq hc
            exact hnd.1 (by
              have hm : q.1 ∈ t.map Prod.fst := List.mem_map_of_mem Prod.fst hq
              rwa [hc] at hm)
          constructor
          · rw [kwLoopAux_preserve named posValues t (assocSet acc k PyVal.vNone) m k hok hrest]
            exact assocGet_assocSet_self _ _ _
          · simpa using h2
        · exact ih (assocSet acc k v) hok hh hnd.2
    · simp [h1] at hok

theorem buildKeywordValues_null_kwarg (named : List (String × ArgumentOpts))
    (posMap : List (Nat × String)) (args : List PyVal) (kwargs : List (String × PyVal))
    (kv : List (String × PyVal)) (n : String)
    (hok : buildKeywordValues named posMap args kwargs = .ok kv)
    (hmem : (n, PyVal.vNone) ∈ kwargs)
    (hnd : (kwargs.map Prod.fst).Nodup) :
    assocGet kv n = some .vNone := by
  cases hpv : posValuesAux posMap args 0 [] with
  | error e =>
    simp only [buildKeywordValues, hpv] at hok
    split at hok <;> split at hok <;> exact Except.noConfusion hok
  | ok posValues =>
    cases hkw : kwLoopAux named posValues [] kwargs with
    | error e =>
      simp only [buildKeywordValues, hpv, hkw] at hok
      split at hok <;> split at hok <;> exact Except.noConfusion hok
    | ok kwDict =>
      simp only [buildKeywordValues, hpv, hkw] at hok
      split at hok <;> split at hok <;> first
        | exact Except.noConfusion hok
        | (simp only [Except.ok.injEq] at hok
           obtain ⟨hget, hhas⟩ := kwLoopAux_found named posValues kwargs [] kwDict n hkw hmem hnd
           have hkeys : ∀ p ∈ posValues, p.1 ≠ n := by
             apply assocGet_none_keys
             cases hg : assocGet posValues n with
             | none => rfl
             | some w =>
               rw [assocHas, hg] at hhas
               exact absurd hhas (by simp)
           rw [← hok, foldl_assocSet_preserve posValues kwDict n hkeys]
           exact hget)

theorem applyDefaults_keep (named : List (String × ArgumentOpts))
    (kv : List (String × PyVal)) (n : String) (d : PyVal)
    (hget : assocGet kv n = some d) (hd : d ≠ .vNone) :
    assocGet (applyDefaults named kv) n = some d := by
  induction named generalizing kv with
  | nil => simpa [applyDefaults]
  | cons p t ih =>
    obtain ⟨k, a⟩ := p
    simp only [applyDefaults, List.foldl_cons] at ih ⊢
    by_cases hk : k = n
    · subst hk
      have hcond : ¬(a.default ≠ PyVal.vNone && ((assocGet kv k).getD .vNone = .vNone) : Bool) = true := by
        rw [hget]
        simp [hd]
      rw [if_neg hcond]
      exact ih kv hget
    · by_cases hcond : (a.default ≠ PyVal.vNone && ((assocGet kv k).getD .vNone = .vNone) : Bool) = true
      · rw [if_pos hcond]
        exact ih (assocSet kv k a.default) (by rwa [assocGet_assocSet_ne _ _ _ _ hk])
      · rw [if_neg hcond]
        exact ih kv hget

theorem applyDefaults_fills (named : List (String × ArgumentOpts))
    (kv : List (String × PyVal)) (n : String) (arg : ArgumentOpts) (d : PyVal)
    (hspec : assocGet named n = some arg)
    (hdef : arg.default = d) (hd : d ≠ .vNone)
    (hcur : assocGet kv n = some .vNone) :
    assocGet (applyDefaults named kv) n = some d := by
  induction named generalizing kv with
  | nil => simp [assocGet] at hspec
  | cons p t ih =>
    obtain ⟨k, a⟩ := p
    simp only [applyDefaults, List.foldl_cons] at ih ⊢
    by_cases hk : k = n
    · subst hk
      have ha : a = arg := by simpa [assocGet] using hspec
      subst ha
      have hcond : (a.default ≠ PyVal.vNone && ((assocGet kv k).getD .vNone = .vNone) : Bool) = true := by
        rw [hcur, hdef]
        simp [hd]
      rw [if_pos hcond]
      have hset : assocGet (assocSet kv k a.default) k = some d := by
        rw [hdef] at *
        exact assocGet_assocSet_self _ _ _
      exact applyDefaults_keep t (assocSet kv k a.default) k d hset hd
    · have hspec2 : assocGet t n = some arg := by simpa [assocGet, hk] using hspec
      by_cases hcond : (a.default ≠ PyVal.vNone && ((assocGet kv k).getD .vNone = .vNone) : Bool) = true
      · rw [if_pos hcond]
        exact ih (assocSet kv k a.default) hspec2 (by rwa [assocGet_assocSet_ne _ _ _ _ hk])
      · rw [if_neg hcond]
        exact ih kv hspec2 hcur

theorem applyFnsAux_no_fn (named : List (String × ArgumentOpts))
    (keys : List String) (m m2 : List (String × PyVal)) (n : String) (arg : ArgumentOpts)
    (hok : applyFnsAux named keys m = .ok m2)
    (hspec : assocGet named n = some arg)
    (hfn : arg.fn = none) :
    assocGet m2 n = assocGet m n := by
  induction keys generalizing m with
  | nil =>
    simp [applyFnsAux] at hok
    subst hok; rfl
  | cons k t ih =>
    simp only [applyFnsAux] at hok
    cases hka : assocGet named k with
    | none =>
      simp only [hka] at hok
      exact absurd hok (by simp)
    | some argk =>
      simp only [hka] at hok
      cases hmk : assocGet m k with
      | none =>
        simp only [hmk] at hok
        exact absurd hok (by simp)
      | some cur =>
        simp only [hmk] at hok
        by_cases hcur : cur = .vNone
        · rw [if_pos hcur] at hok
          exact ih m hok
        · rw [if_neg hcur] at hok
          by_cases hk : k = n
          · subst hk
            rw [hspec] at hka
            injection hka with hka
            subst hka
            rw [hfn] at hok
            exact ih m hok
          · cases hfnk : argk.fn with
            | none => rw [hfnk] at hok; exact ih m hok
            | some f =>
              rw [hfnk] at hok
              cases haty : argk.argtype with
              | some aty =>
                rw [haty] at hok
                by_cases hchk : argIsInstance (f cur) aty = true
                · simp only [hchk, Bool.not_true, if_neg] at hok
                  rw [ih (assocSet m k (f cur)) hok]
                  exact assocGet_assocSet_ne _ _ _ _ hk
                · simp only [Bool.not_eq_true] at hchk
                  simp only [hchk, Bool.not_false, if_pos] at hok
                  exact absurd hok (by simp)
              | none =>
                rw [haty] at hok
                rw [ih (assocSet m k (f cur)) hok]
                exact assocGet_assocSet_ne _ _ _ _ hk

theorem foldl_positive_sum (cs : List Int) (acc : Int) :
    cs.foldl (fun a c => if c > 0 then a + c else a) acc =
      acc + (cs.filter (fun c => 0 < c)).sum := by
  induction cs generalizing acc with
  | nil => simp
  | cons c t ih =>
    by_cases hc : 0 < c
    · rw [List.foldl_cons, if_pos hc, ih, List.filter_cons, if_pos (by simpa using hc),
        List.sum_cons]
      ring
    · rw [List.foldl_cons, if_neg hc, ih, List.filter_cons, if_neg (by simpa using hc)]

/-!
Claim theorems.
-/

/-- C1: the claim states that every non-null column value of an exact numeric
type (TINYINT, SMALLINT, INTEGER, BIGINT) decodes through `py_value` to a
native integer. The code contradicts this for SMALLINT, INTEGER and BIGINT:
their rules declare `pytype=str` (types.py lines 158-160), so the integer the
getter returns is passed through `str(...)` and a native string comes back;
only TINYINT (`pytype=int`, line 157) yields a native integer. Evaluated at a
result set whose getter returns the Java integer 5. -/
theorem c1_exact_numeric_decodes_as_string :
    pyValue defaultJdbcTypes rsFive 1 (some "INTEGER") = .ok (some (.vStr "5")) ∧
    pyValue defaultJdbcTypes rsFive 1 (some "SMALLINT") = .ok (some (.vStr "5")) ∧
    pyValue defaultJdbcTypes rsFive 1 (some "BIGINT") = .ok (some (.vStr "5")) ∧
    pyValue defaultJdbcTypes rsFive 1 (some "TINYINT") = .ok (some (.vInt 5)) := by
  refine ⟨?_, ?_, ?_, ?_⟩ <;> decide

/-- C2: the claim states that a present non-null value failing an
`isinstance` test against its spec's declared type makes parsing fail with a
type-mismatch error. The code guards the raise with
`not inspect.isclass(arg.argtype)` (connect.py line 240), so whenever the
declared argtype is a class — the ordinary case, e.g. `argtype=str` — the
check is skipped entirely and parsing succeeds; the check can only fire for a
non-class argtype such as a tuple of classes. Evaluated at a spec declaring
`str` and a supplied `int` value 42: parsing succeeds and the bag keeps the
mistyped value, while the same value against the tuple `(str,)` does raise. -/
theorem c2_class_argtype_skips_type_check :
    parseParser [("x", specStrTyped)] [] [("x", .vInt 42)] = .ok [("x", .vInt 42)] ∧
    parseParser [("y", specStrTupleTyped)] [] [("y", .vInt 42)] = .error (.typeMismatch "y") := by
  exact ⟨rfl, rfl⟩

/-- C4 counterexample: the claim states that column metadata
`["a.id", "b.id"]` yields the duplicate unprefixed names `["id", "id"]`. The
code takes that branch only when the unprefixed names are pairwise distinct
(dbapi.py line 144); with the duplicate `id`/`id` it leaves the names
untouched, so `column_names` returns `["a.id", "b.id"]`, not `["id", "id"]`. -/
theorem c4_ambiguous_metadata_keeps_prefixes :
    columnNames (some ["a.id", "b.id"]) = .ok (some ["a.id", "b.id"]) ∧
    (Except.ok (some ["a.id", "b.id"]) : Except DbErr (Option (List String))) ≠
      .ok (some ["id", "id"]) := by
  exact ⟨by decide, by decide⟩

/-- C4 as amended: when the names' unprefixed parts (the text after each
name's first dot) are pairwise distinct, `column_names` strips the per-column
prefixes — metadata `["orders.id", "orders.total"]` yields `["id", "total"]`;
when the unprefixed parts collide there is no stripping and the
metadata-reported names come back unchanged — `["a.id", "b.id"]` yields
`["a.id", "b.id"]`, preserved without deduplication. -/
theorem c4_column_name_derivation :
    columnNames (some ["orders.id", "orders.total"]) = .ok (some ["id", "total"]) ∧
    columnNames (some ["a.id", "b.id"]) = .ok (some ["a.id", "b.id"]) := by
  exact ⟨by decide, by decide⟩

/-- C5 counterexample: the claim states that closing an already-closed Cursor
fails with a StateError. `JdbcCursor.close` performs no closed-state check and
swallows every teardown failure, so a second close returns normally: closing a
fresh cursor and closing the result again both produce the released state and
raise nothing. -/
theorem c5_cursor_double_close_is_silent :
    cursorClose freshCursor = .ok closedCursor ∧
    cursorClose closedCursor = .ok closedCursor := by
  exact ⟨rfl, rfl⟩

/-- C5 as amended: closing an already-closed Connection fails with a
StateError ("Connection already closed") and no other error kind, but closing
a Cursor never raises at all — `JdbcCursor.close` returns normally on every
cursor state, so a second cursor close is a silent no-op rather than a
StateError. -/
theorem c5_close_idempotence_behavior :
    connectionClose { closed := true } = .error (.stateError "Connection already closed") ∧
    ∀ c : CursorState, ∃ c2 : CursorState, cursorClose c = .ok c2 := by
  refine ⟨rfl, fun c => ⟨_, rfl⟩⟩

/-- C6: the claim states that boolean values are bound through the boolean
setter. Python's `bool` subclasses `int`, so the `elif isinstance(value, int)`
test (dbapi.py line 351) captures booleans before the `elif isinstance(value,
bool)` branch is reached: `True` is bound via `setInt` with the Java integer
1, and no value at all can reach `setBoolean`. The first conjunct evaluates
the whole dispatch on one value of each kind at 1-based indexes; the others
state the boolean behavior and the unreachability of the boolean setter. -/
theorem c6_bool_binds_via_setInt :
    bindParams [.pStr "a", .pFloat 3, .pInt 5, .pInt 5000000000, .pBool true,
      .pBytes [1, 2], .pOther 9] =
      [.setString 1 "a", .setDouble 2 3, .setInt 3 5, .setLong 4 5000000000,
       .setInt 5 1, .setBytes 6 [1, 2], .setObject 7 9] ∧
    (∀ (col : Nat) (b : Bool), bindParam col (.pBool b) = .setInt col (if b then 1 else 0)) ∧
    (∀ (col : Nat) (v : ParamVal) (col2 : Nat) (b : Bool),
      bindParam col v ≠ .setBoolean col2 b) := by
  refine ⟨by rfl, ?_, ?_⟩
  · intro col b
    cases b <;> rfl
  · intro col v col2 b
    cases v with
    | pStr s => simp [bindParam, paramIsInstance]
    | pFloat t => simp [bindParam, paramIsInstance]
    | pInt n =>
      simp only [bindParam, paramIsInstance, paramIntPayload]
      by_cases h : fitsJInt n = true <;> simp [h]
    | pBool b2 =>
      simp only [bindParam, paramIsInstance, paramIntPayload]
      by_cases h : fitsJInt (if b2 then 1 else 0) = true <;> simp [h]
    | pBytes bs => simp [bindParam, paramIsInstance]
    | pOther t => simp [bindParam, paramIsInstance]

/-- C7: for every registry, every result set the cursor reports as null (the
entry `wasNull()` probe returns true) and every column and type name,
`py_value` returns the native null immediately, before any rule is consulted,
so the rule's declared native type is irrelevant. -/
theorem c7_null_flagged_column_decodes_to_none
    (types : String → Option JdbcType) (rs : RSModel) (columnIdx : Int)
    (jdbcName : Option String) (h : rs.wasNull0 = true) :
    pyValue types rs columnIdx jdbcName = .ok none := by
  simp [pyValue, h]

/-- C7 witness: a concrete null-flagged INTEGER column under the built-in
rule set decodes to the native null. -/
theorem c7_null_flagged_column_decodes_to_none_witness :
    rsNullFlagged.wasNull0 = true ∧
    pyValue defaultJdbcTypes rsNullFlagged 1 (some "INTEGER") = .ok none := by
  exact ⟨rfl, c7_null_flagged_column_decodes_to_none defaultJdbcTypes rsNullFlagged 1
    (some "INTEGER") rfl⟩

/-- C8: when the driver does not support batching, the `executemany` fallback
issues `execute` once per parameter set and accumulates only the positive
per-execution row counts, so unknown counts (-1) and zero counts contribute
nothing: the scenario row counts 1, 1, 0 sum to 2, and in general the result
is the sum of the positive counts. -/
theorem c8_fallback_sums_positive_counts :
    executemanyFallbackRowcount true [1, 1, 0] = 2 ∧
    ∀ execCounts : List Int, executemanyFallbackRowcount true execCounts =
      (execCounts.filter (fun c => 0 < c)).sum := by
  refine ⟨rfl, fun execCounts => ?_⟩
  simp only [executemanyFallbackRowcount, if_pos]
  rw [foldl_positive_sum]
  simp

/-- C3 counterexample: the claim states that a schema whose specs occupy
positions 0, 1 and 2 parses successfully when given only 2 positional values
and no keyword for the third. In the code a declared position forces
`mandatory=True` (connect.py lines 39-40) and the mandatory check then rejects
the call: parsing three positional specs with two values fails with the
missing-required-arguments error naming the third spec. -/
theorem c3_two_of_three_positional_rejected :
    parseParser
      [("a", positionalSpec "a" 0), ("b", positionalSpec "b" 1), ("c", positionalSpec "c" 2)]
      [.vStr "u", .vStr "v"] [] = .error (.missingArguments ["c"]) := by
  decide

/-- C3 as amended: for every schema built from three positional specs at
positions 0, 1, 2 (distinct identifier names), the constructor yields a
mandatory spec with no default, and parsing with only 2 positional values and
no keyword for the third fails with the missing-required-arguments error
naming the third spec — it does not succeed, because positional arguments are
forced mandatory; moreover a positional spec can never carry a non-null
default, since `ArgumentOpts.__init__` rejects that combination outright. -/
theorem c3_third_positional_is_required
    (na nb nc : String) (v1 v2 : PyVal)
    (hia : pyIsIdentifier na = true)
    (hab : na ≠ nb) (hac : na ≠ nc) (hbc : nb ≠ nc) :
    (mkArgumentOpts (some na) (some 0) none none [] [] .vNone none none [] none =
      .ok (positionalSpec na 0)) ∧
    (parseParser
      [(na, positionalSpec na 0), (nb, positionalSpec nb 1), (nc, positionalSpec nc 2)]
      [v1, v2] [] = .error (.missingArguments [nc])) ∧
    (∀ (d : PyVal), d ≠ .vNone → ∀ (nm : String) (p : Nat), pyIsIdentifier nm = true →
      mkArgumentOpts (some nm) (some p) none none [] [] d none none [] none =
        .error (.valueError "mandatory cannot be set when default is set")) := by
  refine ⟨?_, ?_, ?_⟩
  · simp [mkArgumentOpts, hia, positionalSpec]
  · have hseq : ∀ a < 3, ¬a = 0 → ¬a = 1 → a = 2 := by omega
    simp [parseParser, registerArgs, registerArgsAux, registerPositional, parseArgs,
      buildKeywordValues, posValuesAux, kwLoopAux, checkMandatory, assocHas, assocGet,
      assocSet, positionalSpec, pyTruthy, hab, hac, hbc, Ne.symm hab, Ne.symm hac,
      Ne.symm hbc]
    rw [if_pos hseq]
    simp [assocGet, assocSet, hab, hac, hbc, Ne.symm hab, Ne.symm hac, Ne.symm hbc]
  · intro d hd nm p hnm
    simp [mkArgumentOpts, hnm, hd]

/-- C3 witness: the amended statement at the concrete names a, b, c with two
string values, and at a concrete positional spec with a non-null default. -/
theorem c3_third_positional_is_required_witness :
    (parseParser
      [("a", positionalSpec "a" 0), ("b", positionalSpec "b" 1), ("c", positionalSpec "c" 2)]
      [.vStr "u", .vStr "v"] [] = .error (.missingArguments ["c"])) ∧
    (mkArgumentOpts (some "p") (some 0) none none [] [] (.vStr "d") none none [] none =
      .error (.valueError "mandatory cannot be set when default is set")) := by
  have h := c3_third_positional_is_required "a" "b" "c" (.vStr "u") (.vStr "v")
    (by decide) (by decide) (by decide) (by decide)
  exact ⟨h.2.1, h.2.2 (.vStr "d") (by decide) "p" 0 (by decide)⟩

/-- C9 counterexample: the claim states that every positional call whose
`%s`-marker count differs from the supplied value count fails with the
insufficient- or excess-parameters count-mismatch error. For an empty value
sequence (0 values against 1 marker) the code instead raises the generic
"params must be a non empty sequence" ValueError at the top of
`_parse_params` (dbapi.py line 269), before any counting; that error is
neither of the two count-mismatch errors (though no preparation call is made
either way). -/
theorem c9_empty_params_generic_error :
    executeCalls false "select %s" (some []) = ([], some .paramsEmpty) ∧
    DbErr.isCountMismatch .paramsEmpty = false := by
  exact ⟨by decide, by decide⟩

/-- C9 as amended: for every positional-parameter call of `execute` on an open
connection where the `%s`-marker count differs from the supplied value count,
no foreign call is issued at all — in particular no statement preparation —
and the raised ValueError is: the generic empty-parameters error when the
value sequence is empty, the insufficient-parameters error (expected versus
actual counts) when fewer values than markers are supplied, and the
excess-parameters error (carrying the surplus) when more are supplied. -/
theorem c9_count_mismatch_no_prepare (sql : String) (params : List ParamVal)
    (h : countPS sql.data ≠ params.length) :
    executeCalls false sql (some params) =
      ([], some (if params.isEmpty then DbErr.paramsEmpty
        else if params.length < countPS sql.data then
          .insufficientParams (countPS sql.data) params.length
        else .excessParams (params.length - countPS sql.data))) := by
  by_cases hemp : params.isEmpty
  · simp [executeCalls, parseParamsPositional, hemp]
  · by_cases hlt : params.length < countPS sql.data
    · simp [executeCalls, parseParamsPositional, hemp, hlt]
    · have hgt : countPS sql.data < params.length := by
        rcases Nat.lt_or_ge (countPS sql.data) params.length with hx | hx
        · exact hx
        · exact absurd (Nat.le_antisymm (Nat.not_lt.mp hlt) hx) h
      simp [executeCalls, parseParamsPositional, hemp, hlt, hgt, Nat.not_lt.mpr (Nat.le_of_lt hgt)]

/-- C9 witness: one marker short — a two-marker statement with a single value
raises the insufficient-parameters error reporting 2 expected, 1 got, and no
foreign call happens. -/
theorem c9_count_mismatch_no_prepare_witness :
    countPS "select %s, %s".data ≠ [ParamVal.pInt 1].length ∧
    executeCalls false "select %s, %s" (some [.pInt 1]) =
      ([], some (.insufficientParams 2 1)) := by
  refine ⟨by decide, ?_⟩
  have h := c9_count_mismatch_no_prepare "select %s, %s" [.pInt 1] (by decide)
  simpa using h

/-- C10: for every `_parse_args` run that succeeds, every argument whose
registered spec declares a non-null default and no transform function, and
which is explicitly supplied as a null keyword value, comes out of the bag
carrying the default, not the null: the defaults pass (connect.py lines
266-269) tests `keyword_values.get(name) is None`, which an explicitly
supplied null satisfies just like an absent key. -/
theorem c10_default_overwrites_explicit_null
    (named : List (String × ArgumentOpts)) (posMap : List (Nat × String))
    (args : List PyVal) (kwargs : List (String × PyVal)) (bag : List (String × PyVal))
    (n : String) (arg : ArgumentOpts) (d : PyVal)
    (hnd : (kwargs.map Prod.fst).Nodup)
    (hmem : (n, PyVal.vNone) ∈ kwargs)
    (hspec : assocGet named n = some arg)
    (hdef : arg.default = d) (hd : d ≠ .vNone)
    (hfn : arg.fn = none)
    (hok : parseArgs named posMap args kwargs = .ok bag) :
    assocGet bag n = some d := by
  simp only [parseArgs] at hok
  cases hkv : buildKeywordValues named posMap args kwargs with
  | error e => simp only [hkv] at hok; exact absurd hok (by simp)
  | ok kv =>
    simp only [hkv] at hok
    cases hm : checkMandatory named kv with
    | error e => simp only [hm] at hok; exact absurd hok (by simp)
    | ok u1 =>
      simp only [hm] at hok
      cases ht : checkTypesAux named kv with
      | error e => simp only [ht] at hok; exact absurd hok (by simp)
      | ok u2 =>
        simp only [ht] at hok
        cases hre : checkRequiresExcludesAux named kv kv with
        | error e => simp only [hre] at hok; exact absurd hok (by simp)
        | ok u3 =>
          simp only [hre] at hok
          cases hfns : applyFns named (applyDefaults named kv) with
          | error e => simp only [hfns] at hok; exact absurd hok (by simp)
          | ok kv3 =>
            simp only [hfns] at hok
            cases hch : checkChoicesAux named kv3 with
            | error e => simp only [hch] at hok; exact absurd hok (by simp)
            | ok u4 =>
              simp only [hch, Except.ok.injEq] at hok
              subst hok
              have hkvn : assocGet kv n = some .vNone :=
                buildKeywordValues_null_kwarg named posMap args kwargs kv n hkv hmem hnd
              have hdefs : assocGet (applyDefaults named kv) n = some d :=
                applyDefaults_fills named kv n arg d hspec hdef hd hkvn
              have := applyFnsAux_no_fn named ((applyDefaults named kv).map Prod.fst)
                (applyDefaults named kv) kv3 n arg hfns hspec hfn
              rw [this, hdefs]

/-- C10 witness: a spec with default "def" and no transform, supplied
explicitly as a null keyword: parsing succeeds and the bag carries "def". -/
theorem c10_default_overwrites_explicit_null_witness :
    parseArgs [("x", specWithDefault)] [] [] [("x", .vNone)] = .ok [("x", .vStr "def")] ∧
    assocGet [("x", PyVal.vStr "def")] "x" = some (.vStr "def") := by
  refine ⟨by decide, ?_⟩
  exact c10_default_overwrites_explicit_null [("x", specWithDefault)] [] [] [("x", .vNone)]
    [("x", .vStr "def")] "x" specWithDefault (.vStr "def")
    (by simp) (by simp) (by rfl) rfl (by decide) rfl (by decide)
